import Mathlib

/-!
Shallow embedding of the transaction-computation and receipt-construction
logic of a point-of-sale web application (manual invoice entry, cart
subtotal, discount and total computation, receipt assembly), together with
theorems checking the natural-language specification against it.

Modelling conventions: currency values and prices are rationals (the source
operates on JavaScript numbers; all business inputs are integer currency
units, and the one internal division, a photocopy price per sheet, is
represented exactly). Quantities are integers. `Date.now()` timestamps and
wall-clock dates are explicit parameters.
-/

/-- JavaScript `Math.max` on rationals, written with an explicit comparison so
that concrete instances evaluate in the kernel. -/
def jsMax (x y : ℚ) : ℚ := if x ≤ y then y else x

/-- JavaScript `Math.round`: half rounds toward +∞, i.e. `⌊x + 1/2⌋`; written
with `Rat.floor` so that concrete instances evaluate in the kernel. -/
def jsRound (x : ℚ) : ℤ := (x + 1/2).floor

/-- Discount mode tag, from the `discountType` union type (amount or percent)
in `ManualInvoice.tsx` and the shopping-cart component. -/
inductive DiscountType
  | amount
  | percent
deriving Repr, DecidableEq

/-- A manual invoice line item (`interface ManualItem` in `ManualInvoice.tsx`). -/
structure ManualItem where
  id : String
  name : String
  quantity : ℤ
  unitPrice : ℚ
  total : ℚ
deriving Repr, DecidableEq

/-- Subtotal of the manual item list:
`items.reduce((sum, item) => sum + item.total, 0)` (`ManualInvoice.tsx` line 93). -/
def subtotalOf (items : List ManualItem) : ℚ :=
  items.foldl (fun sum item => sum + item.total) 0

/-- Discount amount (`ManualInvoice.tsx` lines 94–96): in percent mode
`Math.round(subtotal * (discount / 100))`, in amount mode the raw entered
value. -/
def discountAmountOf (discountType : DiscountType) (discount : ℚ) (subtotal : ℚ) : ℚ :=
  match discountType with
  | .percent => (jsRound (subtotal * (discount / 100)) : ℚ)
  | .amount => discount

/-- Total (`ManualInvoice.tsx` line 97): `Math.max(0, subtotal - discountAmount)`. -/
def totalOf (subtotal discountAmount : ℚ) : ℚ :=
  jsMax 0 (subtotal - discountAmount)

/-- The candidate regular row being edited (`currentItem` state in
`ManualInvoice.tsx`). -/
structure CurrentItem where
  name : String
  quantity : ℤ
  unitPrice : ℚ
deriving Repr, DecidableEq

/-- Which add-item tab is active (`itemType` state in `ManualInvoice.tsx`). -/
inductive ItemKind
  | regular
  | photocopy
deriving Repr, DecidableEq

/-- The component state of `ManualInvoice` that the add/checkout handlers read
and write. -/
structure MIState where
  items : List ManualItem
  currentItem : CurrentItem
  paymentMethod : String
  discount : ℚ
  discountType : DiscountType
  photocopyQuantity : ℤ
  photocopyTotalPrice : ℚ
  itemKind : ItemKind
deriving Repr, DecidableEq

/-- Result of the `addItem` handler: the next component state, plus the toast
error message when validation failed (the handler returns early in that case,
leaving the state untouched). -/
structure AddResult where
  state : MIState
  errorMsg : Option String
deriving Repr, DecidableEq

/-- The `addItem` handler of `ManualInvoice.tsx` (lines 43–78). `now` is the
millisecond timestamp `Date.now()` used as the fresh row identifier. -/
def addItem (now : ℕ) (s : MIState) : AddResult :=
  match s.itemKind with
  | .regular =>
    if s.currentItem.name = "" ∨ s.currentItem.unitPrice ≤ 0 ∨ s.currentItem.quantity ≤ 0 then
      { state := s, errorMsg := some "Nama barang, jumlah, dan harga harus diisi!" }
    else
      let newItem : ManualItem :=
        { id := toString now
          name := s.currentItem.name
          quantity := s.currentItem.quantity
          unitPrice := s.currentItem.unitPrice
          total := s.currentItem.quantity * s.currentItem.unitPrice }
      { state := { s with
          items := s.items ++ [newItem]
          currentItem := { name := "", quantity := 0, unitPrice := 0 } }
        errorMsg := none }
  | .photocopy =>
    if s.photocopyQuantity ≤ 0 ∨ s.photocopyTotalPrice ≤ 0 then
      { state := s, errorMsg := some "Jumlah fotocopy dan harga total harus diisi!" }
    else
      let newItem : ManualItem :=
        { id := toString now
          name := "Fotocopy " ++ toString s.photocopyQuantity ++ " lembar"
          quantity := s.photocopyQuantity
          unitPrice := s.photocopyTotalPrice / (s.photocopyQuantity : ℚ)
          total := s.photocopyTotalPrice }
      { state := { s with
          items := s.items ++ [newItem]
          photocopyQuantity := 0
          photocopyTotalPrice := 0 }
        errorMsg := none }

/-- A catalog product as embedded in receipt items (the object literal built in
`handleCreateInvoice`, lines 116–124). -/
structure CartProduct where
  id : String
  name : String
  costPrice : ℚ
  sellPrice : ℚ
  stock : ℤ
  category : String
  isPhotocopy : Bool
deriving Repr, DecidableEq

/-- A cart line item: product, quantity, and the optional override price
(`finalPrice`). -/
structure CartItem where
  product : CartProduct
  quantity : ℤ
  finalPrice : Option ℚ
deriving Repr, DecidableEq

/-- A calendar date, standing for the wall clock read via `new Date()`. -/
structure CalDate where
  day : ℕ
  month : ℕ
  year : ℕ
deriving Repr, DecidableEq

/-- `String(n).padStart(2, 0-char)` for the day and month components. -/
def pad2 (n : ℕ) : String :=
  if n < 10 then "0" ++ toString n else toString n

/-- The date component `${day}${month}${year}` of the invoice id: two-digit
day, two-digit month, and the last two digits of the year (`slice(-2)` on a
four-digit year). -/
def dateStr (d : CalDate) : String :=
  pad2 d.day ++ pad2 d.month ++ pad2 (d.year % 100)

/-- The generated invoice identifier (lines 105–112):
`MANUAL-${counter}${dateStr}` with `counter = receipts.length + 1`. -/
def invoiceId (receiptsCount : ℕ) (d : CalDate) : String :=
  "MANUAL-" ++ toString (receiptsCount + 1) ++ dateStr d

/-- A receipt record (the object built at lines 129–138). -/
structure Receipt where
  id : String
  items : List CartItem
  subtotal : ℚ
  discount : ℚ
  total : ℚ
  profit : ℚ
  timestamp : CalDate
  paymentMethod : String
deriving Repr, DecidableEq

/-- The conversion of a manual item to the cart-item shape used inside the
receipt (lines 115–127). -/
def manualToCartItem (item : ManualItem) : CartItem :=
  { product :=
      { id := item.id
        name := item.name
        costPrice := 0
        sellPrice := item.unitPrice
        stock := 0
        category := "Manual"
        isPhotocopy := false }
    quantity := item.quantity
    finalPrice := some item.unitPrice }

/-- Result of the `handleCreateInvoice` handler: next component state, the
receipt handed to `onCreateInvoice` when one was created, and the toast error
message when validation failed. -/
structure CheckoutResult where
  state : MIState
  receipt : Option Receipt
  errorMsg : Option String
deriving Repr, DecidableEq

/-- The `handleCreateInvoice` handler of `ManualInvoice.tsx` (lines 99–150).
`d` is the wall-clock date and `receipts` the existing receipt history. -/
def handleCreateInvoice (d : CalDate) (receipts : List Receipt) (s : MIState) : CheckoutResult :=
  if s.items.length = 0 then
    { state := s, receipt := none, errorMsg := some "Tambahkan minimal satu item!" }
  else
    let sub := subtotalOf s.items
    let dA := discountAmountOf s.discountType s.discount sub
    let tot := totalOf sub dA
    let receipt : Receipt :=
      { id := invoiceId receipts.length d
        items := s.items.map manualToCartItem
        subtotal := sub
        discount := dA
        total := tot
        profit := tot
        timestamp := d
        paymentMethod := s.paymentMethod }
    { state := { s with
        items := []
        currentItem := { name := "", quantity := 0, unitPrice := 0 }
        discount := 0
        paymentMethod := "cash" }
      receipt := some receipt
      errorMsg := none }

/-- The caller (`onCreateInvoice`) appends the produced receipt, if any, to the
history list. -/
def appendReceipt (receipts : List Receipt) (r : Option Receipt) : List Receipt :=
  match r with
  | some receipt => receipts ++ [receipt]
  | none => receipts

/-- The effective unit price of a cart item:
`item.finalPrice || item.product.sellPrice` in `CartView.tsx` (line 16) and the
shopping-cart component (line 51). A JavaScript falsy override (absent, or the
number 0) falls back to the catalog sell price. -/
def effectivePrice (item : CartItem) : ℚ :=
  match item.finalPrice with
  | some p => if p = 0 then item.product.sellPrice else p
  | none => item.product.sellPrice

/-- The displayed line total `(item.finalPrice || item.product.sellPrice) * item.quantity`. -/
def lineTotal (item : CartItem) : ℚ :=
  effectivePrice item * (item.quantity : ℚ)

/-- The cart subtotal (`CartView.tsx` lines 15–18): a reduce with the effective
price of each item. -/
def cartSubtotal (cart : List CartItem) : ℚ :=
  cart.foldl (fun sum item => sum + effectivePrice item * (item.quantity : ℚ)) 0

/-- The effective unit price exactly as the specification words it, for the
refinement comparison: the override price when present, and otherwise the
catalog sell price (no special treatment of a zero override). -/
def specEffectivePrice (item : CartItem) : ℚ :=
  match item.finalPrice with
  | some p => p
  | none => item.product.sellPrice

/-- The cart subtotal exactly as the specification words it: the sum over
items of the spec-side effective unit price times the quantity. -/
def specSubtotal (cart : List CartItem) : ℚ :=
  (cart.map (fun item => specEffectivePrice item * (item.quantity : ℚ))).sum

/-- The decimal digit list of a natural number, most significant digit first:
the well-founded-recursion counterpart of the fuelled `Nat.toDigitsCore` used
by `Nat.repr`. -/
def decDigits (n : ℕ) : List Char :=
  if n < 10 then [Nat.digitChar n]
  else decDigits (n / 10) ++ [Nat.digitChar (n % 10)]
decreasing_by exact Nat.div_lt_self (by omega) (by omega)

/-- The numeric value of a decimal digit character (anything else maps to 9;
only digit characters ever occur in `decDigits`). -/
def valOfChar (c : Char) : ℕ :=
  if c = '0' then 0 else if c = '1' then 1 else if c = '2' then 2 else
  if c = '3' then 3 else if c = '4' then 4 else if c = '5' then 5 else
  if c = '6' then 6 else if c = '7' then 7 else if c = '8' then 8 else 9

/-- Reads a digit list back as a natural number; a left inverse to `decDigits`
used to prove that decimal representations are injective. -/
def parseVal (l : List Char) : ℕ :=
  l.foldl (fun a c => 10 * a + valOfChar c) 0

/-- Fixed concrete date used by witnesses and counterexamples. -/
def d0 : CalDate := { day := 11, month := 10, year := 2025 }

/-- Concrete component state for the amount-mode discount counterexample:
one item of total 10, entered amount discount 20. -/
def s4 : MIState :=
  { items := [{ id := "1", name := "Barang", quantity := 1, unitPrice := 10, total := 10 }]
    currentItem := { name := "", quantity := 0, unitPrice := 0 }
    paymentMethod := "cash"
    discount := 20
    discountType := .amount
    photocopyQuantity := 0
    photocopyTotalPrice := 0
    itemKind := .regular }

/-- Concrete component state for the photocopy quick-add counterexample:
2 sheets, total price 1000. -/
def s5 : MIState :=
  { items := []
    currentItem := { name := "", quantity := 0, unitPrice := 0 }
    paymentMethod := "cash"
    discount := 0
    discountType := .amount
    photocopyQuantity := 2
    photocopyTotalPrice := 1000
    itemKind := .photocopy }

/-- Concrete empty-cart component state for the empty-checkout witness. -/
def s6 : MIState :=
  { items := []
    currentItem := { name := "", quantity := 0, unitPrice := 0 }
    paymentMethod := "cash"
    discount := 5
    discountType := .amount
    photocopyQuantity := 0
    photocopyTotalPrice := 0
    itemKind := .regular }

/-- Concrete component state with a valid candidate regular row. -/
def s7 : MIState :=
  { items := []
    currentItem := { name := "Pulpen", quantity := 3, unitPrice := 1500 }
    paymentMethod := "cash"
    discount := 0
    discountType := .amount
    photocopyQuantity := 0
    photocopyTotalPrice := 0
    itemKind := .regular }

/-- Concrete component state realising the spec scenario: one manual row of
quantity 50 and unit price 200, percent-mode discount 0. -/
def s9 : MIState :=
  { items := [{ id := "9", name := "Jasa", quantity := 50, unitPrice := 200, total := 10000 }]
    currentItem := { name := "", quantity := 0, unitPrice := 0 }
    paymentMethod := "cash"
    discount := 0
    discountType := .percent
    photocopyQuantity := 0
    photocopyTotalPrice := 0
    itemKind := .regular }

/-- Concrete cart item with an explicit zero override price over a nonzero
catalog price. -/
def cex3 : CartItem :=
  { product :=
      { id := "p1", name := "Pensil", costPrice := 2, sellPrice := 5, stock := 3
        category := "ATK", isPhotocopy := false }
    quantity := 1
    finalPrice := some 0 }

/-- The receipt the scenario state `s9` is expected to produce: subtotal,
total and profit all equal to 10000. -/
def r9 : Receipt :=
  { id := invoiceId 0 d0
    items := s9.items.map manualToCartItem
    subtotal := 10000
    discount := 0
    total := 10000
    profit := 10000
    timestamp := d0
    paymentMethod := "cash" }

/-! ## General lemmas about the embedded primitives -/

/-- `jsMax` agrees with the order-theoretic `max` on `ℚ`. -/
theorem jsMax_eq_max (x y : ℚ) : jsMax x y = max x y := by
  rw [jsMax, max_def]

/-- `jsRound` is the integer floor of `x + 1/2`. -/
theorem jsRound_eq_floor (x : ℚ) : jsRound x = ⌊x + 1/2⌋ := by
  rw [jsRound, Rat.floor_def', Rat.floor_def]

/-- A left fold adding a projection is the starting value plus the sum of the
projections. -/
theorem foldl_add_map_sum {α : Type} (f : α → ℚ) :
    ∀ (l : List α) (a : ℚ), l.foldl (fun sum x => sum + f x) a = a + (l.map f).sum := by
  intro l
  induction l with
  | nil => intro a; simp
  | cons x xs ih =>
    intro a
    simp only [List.foldl_cons, List.map_cons, List.sum_cons, ih (a + f x)]
    ring

/-- The manual-invoice subtotal is the sum of the stored line totals. -/
theorem subtotalOf_eq_sum (items : List ManualItem) :
    subtotalOf items = (items.map ManualItem.total).sum := by
  rw [subtotalOf, foldl_add_map_sum, zero_add]

/-- The cart subtotal is the sum of the effective line totals. -/
theorem cartSubtotal_eq_sum (cart : List CartItem) :
    cartSubtotal cart = (cart.map lineTotal).sum := by
  rw [cartSubtotal, foldl_add_map_sum (fun item => effectivePrice item * (item.quantity : ℚ)),
    zero_add]
  rfl

/-! ## Decimal printing of naturals is injective -/

/-- The fuelled digit accumulator behind `Nat.repr` agrees with `decDigits`
whenever the fuel exceeds the number. -/
theorem toDigitsCore_eq_decDigits :
    ∀ (fuel n : ℕ) (ds : List Char), n < fuel →
      Nat.toDigitsCore 10 fuel n ds = decDigits n ++ ds := by
  intro fuel
  induction fuel with
  | zero => intro n ds h; omega
  | succ fuel ih =>
    intro n ds h
    by_cases h10 : n < 10
    · have hdiv : n / 10 = 0 := Nat.div_eq_of_lt h10
      simp only [Nat.toDigitsCore, hdiv, if_pos]
      rw [decDigits]
      simp [h10, Nat.mod_eq_of_lt h10]
    · have hne : ¬ (n / 10 = 0) := by omega
      simp only [Nat.toDigitsCore, if_neg hne]
      rw [ih (n / 10) _ (by omega)]
      conv_rhs => rw [decDigits]
      simp [h10, List.append_assoc]

/-- `Nat.toDigits` in base 10 computes `decDigits`. -/
theorem toDigits_eq_decDigits (n : ℕ) : Nat.toDigits 10 n = decDigits n := by
  rw [Nat.toDigits, toDigitsCore_eq_decDigits (n + 1) n [] (Nat.lt_succ_self n),
    List.append_nil]

/-- `valOfChar` inverts `Nat.digitChar` on single digits. -/
theorem valOfChar_digitChar : ∀ m, m < 10 → valOfChar (Nat.digitChar m) = m := by decide

/-- `parseVal` is a left inverse of `decDigits`. -/
theorem parseVal_decDigits (n : ℕ) : parseVal (decDigits n) = n := by
  induction n using Nat.strong_induction_on with
  | _ n ih =>
    rw [decDigits]
    by_cases h10 : n < 10
    · simp [h10, parseVal, valOfChar_digitChar n h10]
    · rw [if_neg h10, parseVal, List.foldl_append]
      have h1 : List.foldl (fun a c => 10 * a + valOfChar c) 0 (decDigits (n / 10)) = n / 10 :=
        ih (n / 10) (Nat.div_lt_self (by omega) (by omega))
      rw [h1]
      have h2 : valOfChar (Nat.digitChar (n % 10)) = n % 10 :=
        valOfChar_digitChar (n % 10) (Nat.mod_lt n (by omega))
      simp [List.foldl, h2]
      omega

/-- Decimal digit lists determine the number. -/
theorem decDigits_inj {m n : ℕ} (h : decDigits m = decDigits n) : m = n := by
  have hp := congrArg parseVal h
  rwa [parseVal_decDigits, parseVal_decDigits] at hp

/-- The decimal printing `Nat.repr` used by `toString` on `ℕ` is injective. -/
theorem natRepr_inj {m n : ℕ} (h : Nat.repr m = Nat.repr n) : m = n := by
  apply decDigits_inj
  rw [← toDigits_eq_decDigits, ← toDigits_eq_decDigits]
  exact congrArg String.data h

/-- `toString` on `ℕ` is `Nat.repr`. -/
theorem toString_nat_eq_repr (n : ℕ) : toString n = Nat.repr n := rfl

/-- A padded component is exactly two characters long for values below 100. -/
theorem pad2_length : ∀ n, n < 100 → (pad2 n).length = 2 := by decide

/-- The date component is six characters long for in-range days and months. -/
theorem dateStr_length (d : CalDate) (hd : d.day < 100) (hm : d.month < 100) :
    (dateStr d).length = 6 := by
  rw [dateStr]
  simp only [String.length_append]
  rw [pad2_length d.day hd, pad2_length d.month hm,
    pad2_length (d.year % 100) (Nat.mod_lt _ (by omega))]

/-- Invoice identifiers generated from consecutive history counts on the same
date are distinct. -/
theorem invoiceId_succ_ne (n : ℕ) (d : CalDate) : invoiceId n d ≠ invoiceId (n + 1) d := by
  intro h
  have hd := congrArg String.data h
  rw [invoiceId, invoiceId] at hd
  simp only [String.data_append, List.append_assoc] at hd
  have h1 := List.append_cancel_left hd
  have h2 := List.append_cancel_right h1
  have h3 : toString (n + 1) = toString (n + 1 + 1) := String.ext h2
  rw [toString_nat_eq_repr, toString_nat_eq_repr] at h3
  have h4 := natRepr_inj h3
  omega

/-- On a non-empty item list, `handleCreateInvoice` builds the receipt from the
pricing calculator and resets the form. -/
theorem handleCreateInvoice_nonempty (d : CalDate) (receipts : List Receipt) (s : MIState)
    (h : ¬ s.items.length = 0) :
    handleCreateInvoice d receipts s =
      { state := { s with
          items := []
          currentItem := { name := "", quantity := 0, unitPrice := 0 }
          discount := 0
          paymentMethod := "cash" }
        receipt := some
          { id := invoiceId receipts.length d
            items := s.items.map manualToCartItem
            subtotal := subtotalOf s.items
            discount := discountAmountOf s.discountType s.discount (subtotalOf s.items)
            total := totalOf (subtotalOf s.items)
              (discountAmountOf s.discountType s.discount (subtotalOf s.items))
            profit := totalOf (subtotalOf s.items)
              (discountAmountOf s.discountType s.discount (subtotalOf s.items))
            timestamp := d
            paymentMethod := s.paymentMethod }
        errorMsg := none } := by
  rw [handleCreateInvoice, if_neg h]

/-! ## Claim theorems -/

/-- C1: for every line-item list and every discount specification, the computed
total equals `max 0 (subtotal - discountAmount)`; in particular the total is
never negative, even when the discount amount exceeds the subtotal. -/
theorem total_eq_max_zero_sub (items : List ManualItem) (dt : DiscountType) (v : ℚ) :
    totalOf (subtotalOf items) (discountAmountOf dt v (subtotalOf items)) =
      max 0 (subtotalOf items - discountAmountOf dt v (subtotalOf items)) ∧
    0 ≤ totalOf (subtotalOf items) (discountAmountOf dt v (subtotalOf items)) := by
  constructor
  · rw [totalOf, jsMax_eq_max]
  · rw [totalOf, jsMax_eq_max]
    exact le_max_left 0 _

/-- C2: for a non-negative integer subtotal S and an integer percent value p in
[0,100], the percent-mode discount amount is the half-up rounding of
S times p over 100, and lies between 0 and S. -/
theorem percent_discount_round_bounds (S : ℕ) (p : ℚ) (hp0 : 0 ≤ p) (hp : p ≤ 100) :
    discountAmountOf .percent p (S : ℚ) = (jsRound ((S : ℚ) * p / 100) : ℚ) ∧
    0 ≤ discountAmountOf .percent p (S : ℚ) ∧
    discountAmountOf .percent p (S : ℚ) ≤ (S : ℚ) := by
  have harg : (S : ℚ) * (p / 100) = (S : ℚ) * p / 100 := by ring
  have hS0 : (0 : ℚ) ≤ (S : ℚ) := Nat.cast_nonneg S
  refine ⟨by rw [discountAmountOf, harg], ?_, ?_⟩
  · rw [discountAmountOf, harg, jsRound_eq_floor]
    have h0 : (0 : ℚ) ≤ (S : ℚ) * p / 100 := by positivity
    have hfl : (0 : ℤ) ≤ ⌊(S : ℚ) * p / 100 + 1/2⌋ := by
      apply Int.le_floor.mpr
      push_cast
      linarith
    exact_mod_cast hfl
  · rw [discountAmountOf, harg, jsRound_eq_floor]
    have hle : (S : ℚ) * p / 100 ≤ (S : ℚ) := by
      rw [div_le_iff₀ (by norm_num : (0 : ℚ) < 100)]
      nlinarith
    have hlt : ⌊(S : ℚ) * p / 100 + 1/2⌋ < (S : ℤ) + 1 := by
      apply Int.floor_lt.mpr
      push_cast
      linarith
    have hfl : ⌊(S : ℚ) * p / 100 + 1/2⌋ ≤ (S : ℤ) := by omega
    exact_mod_cast hfl

/-- Witness for C2 at the spec scenario: subtotal 45000, percent 10, discount
amount 4500. -/
theorem percent_discount_round_bounds_witness :
    (0 : ℚ) ≤ 10 ∧ (10 : ℚ) ≤ 100 ∧
    (discountAmountOf .percent (10 : ℚ) ((45000 : ℕ) : ℚ) =
        (jsRound (((45000 : ℕ) : ℚ) * (10 : ℚ) / 100) : ℚ) ∧
      0 ≤ discountAmountOf .percent (10 : ℚ) ((45000 : ℕ) : ℚ) ∧
      discountAmountOf .percent (10 : ℚ) ((45000 : ℕ) : ℚ) ≤ ((45000 : ℕ) : ℚ)) :=
  ⟨by norm_num, by norm_num,
    percent_discount_round_bounds 45000 10 (by norm_num) (by norm_num)⟩

/-- C6: checkout on an empty item list fails with the validation message,
produces no receipt, appends nothing to history, and leaves the component
state unchanged. -/
theorem checkout_empty_fails (d : CalDate) (receipts : List Receipt) (s : MIState)
    (h : s.items = []) :
    (handleCreateInvoice d receipts s).receipt = none ∧
    (handleCreateInvoice d receipts s).errorMsg = some "Tambahkan minimal satu item!" ∧
    (handleCreateInvoice d receipts s).state = s ∧
    appendReceipt receipts (handleCreateInvoice d receipts s).receipt = receipts := by
  have hlen : s.items.length = 0 := by rw [h]; rfl
  rw [handleCreateInvoice, if_pos hlen]
  exact ⟨rfl, rfl, rfl, rfl⟩

/-- Witness for C6 on a concrete empty-cart state. -/
theorem checkout_empty_fails_witness :
    s6.items = [] ∧
    ((handleCreateInvoice d0 [] s6).receipt = none ∧
      (handleCreateInvoice d0 [] s6).errorMsg = some "Tambahkan minimal satu item!" ∧
      (handleCreateInvoice d0 [] s6).state = s6 ∧
      appendReceipt [] (handleCreateInvoice d0 [] s6).receipt = []) :=
  ⟨rfl, checkout_empty_fails d0 [] s6 rfl⟩

/-- C9: every receipt produced by a manual-invoice checkout has its profit
field equal to its total field (manual items carry no cost basis). -/
theorem manual_receipt_profit_eq_total (d : CalDate) (receipts : List Receipt) (s : MIState)
    (r : Receipt) (h : (handleCreateInvoice d receipts s).receipt = some r) :
    r.profit = r.total := by
  by_cases hlen : s.items.length = 0
  · rw [handleCreateInvoice, if_pos hlen] at h
    exact absurd h (by simp)
  · rw [handleCreateInvoice_nonempty d receipts s hlen] at h
    simp only [Option.some.injEq] at h
    rw [← h]

/-- The scenario state `s9` checks out to exactly the receipt `r9`. -/
theorem checkout_s9_receipt : (handleCreateInvoice d0 [] s9).receipt = some r9 := by
  rw [handleCreateInvoice_nonempty d0 [] s9 (by decide)]
  simp only [Option.some.injEq, r9]
  have hsub : subtotalOf s9.items = 10000 := by
    norm_num [s9, subtotalOf]
  have hdisc : discountAmountOf s9.discountType s9.discount 10000 = 0 := by
    show (jsRound ((10000 : ℚ) * (0 / 100)) : ℚ) = 0
    rw [jsRound_eq_floor]
    norm_num
  have htot : totalOf 10000 (0 : ℚ) = 10000 := by
    rw [totalOf, jsMax_eq_max]
    norm_num
  rw [hsub, hdisc, htot]
  rfl

/-- Witness for C9 at the spec scenario: one manual row of quantity 50 and
unit price 200 with percent discount 0 yields subtotal, total and profit all
10000. -/
theorem manual_receipt_profit_eq_total_witness :
    (handleCreateInvoice d0 [] s9).receipt = some r9 ∧
    r9.profit = r9.total ∧ r9.subtotal = 10000 ∧ r9.total = 10000 ∧ r9.profit = 10000 :=
  ⟨checkout_s9_receipt,
    manual_receipt_profit_eq_total d0 [] s9 r9 checkout_s9_receipt, rfl, rfl, rfl⟩

/-- Counterexample to C4: with subtotal 10 and entered amount-mode discount 20,
the receipt stores discount 20, which does not lie in the interval [0, 10] —
the entered value is used without any clamping. -/
theorem amount_discount_unclamped_cex :
    (handleCreateInvoice d0 [] s4).receipt.map Receipt.subtotal = some 10 ∧
    (handleCreateInvoice d0 [] s4).receipt.map Receipt.discount = some 20 ∧
    ¬ ((20 : ℚ) ≤ 10) := by
  rw [handleCreateInvoice_nonempty d0 [] s4 (by decide)]
  have hsub : subtotalOf s4.items = 10 := by
    norm_num [s4, subtotalOf]
  have hdisc : discountAmountOf s4.discountType s4.discount 10 = 20 := rfl
  rw [hsub, hdisc]
  refine ⟨rfl, rfl, by norm_num⟩

/-- C4 (amended): in amount mode the discount amount actually used is the
literal entered value, with no clamping, so it can lie outside [0, subtotal];
the computed total nevertheless coincides, for non-negative inputs, with what
the clamped discount would produce. -/
theorem amount_discount_literal (dv S : ℚ) (hd : 0 ≤ dv) (hS : 0 ≤ S) :
    discountAmountOf .amount dv S = dv ∧
    totalOf S (discountAmountOf .amount dv S) = S - min dv S := by
  refine ⟨rfl, ?_⟩
  rw [discountAmountOf, totalOf, jsMax_eq_max]
  rcases le_total dv S with h | h
  · rw [min_eq_left h, max_eq_right (by linarith)]
  · rw [min_eq_right h, max_eq_left (by linarith)]
    ring

/-- Witness for C4 (amended) at entered discount 20 over subtotal 10. -/
theorem amount_discount_literal_witness :
    (0 : ℚ) ≤ 20 ∧ (0 : ℚ) ≤ 10 ∧
    (discountAmountOf .amount 20 10 = 20 ∧
      totalOf 10 (discountAmountOf .amount 20 10) = 10 - min 20 10) :=
  ⟨by norm_num, by norm_num, amount_discount_literal 20 10 (by norm_num) (by norm_num)⟩

/-- C8: the receipt identifier is the prefix, the sequence number equal to the
receipt count plus one, and the six-character date component, concatenated
without separators; identifiers from consecutive counts on the same date are
distinct (and share prefix and date, so they differ only in the sequence
component). -/
theorem invoiceId_format_and_distinct (n : ℕ) (d : CalDate)
    (hd : d.day < 100) (hm : d.month < 100) :
    invoiceId n d = "MANUAL-" ++ toString (n + 1) ++ dateStr d ∧
    invoiceId (n + 1) d = "MANUAL-" ++ toString (n + 1 + 1) ++ dateStr d ∧
    (dateStr d).length = 6 ∧
    invoiceId n d ≠ invoiceId (n + 1) d :=
  ⟨rfl, rfl, dateStr_length d hd hm, invoiceId_succ_ne n d⟩

/-- Witness for C8 at count 0 and the fixed date `d0`. -/
theorem invoiceId_format_and_distinct_witness :
    d0.day < 100 ∧ d0.month < 100 ∧
    (invoiceId 0 d0 = "MANUAL-" ++ toString (0 + 1) ++ dateStr d0 ∧
      invoiceId (0 + 1) d0 = "MANUAL-" ++ toString (0 + 1 + 1) ++ dateStr d0 ∧
      (dateStr d0).length = 6 ∧
      invoiceId 0 d0 ≠ invoiceId (0 + 1) d0) :=
  ⟨by decide, by decide, invoiceId_format_and_distinct 0 d0 (by decide) (by decide)⟩

/-- Counterexample to C3: an item with an explicit zero override price over a
catalog price of 5 contributes 5 to the computed subtotal, while the
spec-side reading (override used whenever present) yields 0. -/
theorem zero_override_subtotal_cex :
    cartSubtotal [cex3] = 5 ∧ specSubtotal [cex3] = 0 ∧
    cartSubtotal [cex3] ≠ specSubtotal [cex3] := by
  have h1 : cartSubtotal [cex3] = 5 := by
    norm_num [cartSubtotal, cex3, effectivePrice]
  have h2 : specSubtotal [cex3] = 0 := by
    norm_num [specSubtotal, cex3, specEffectivePrice]
  refine ⟨h1, h2, ?_⟩
  rw [h1, h2]
  norm_num

/-- C3 (amended): the cart subtotal is the exact sum over items of effective
unit price times quantity, where the effective unit price is the override
price when present and nonzero, and otherwise the catalog sell price. -/
theorem cart_subtotal_effective_sum (cart : List CartItem) :
    cartSubtotal cart =
      (cart.map (fun item => effectivePrice item * (item.quantity : ℚ))).sum ∧
    ∀ item : CartItem,
      (∀ p, item.finalPrice = some p → p ≠ 0 → effectivePrice item = p) ∧
      (item.finalPrice = none ∨ item.finalPrice = some 0 →
        effectivePrice item = item.product.sellPrice) := by
  constructor
  · rw [cartSubtotal, foldl_add_map_sum, zero_add]
  · intro item
    constructor
    · intro p hp hne
      simp [effectivePrice, hp, hne]
    · rintro (h | h) <;> simp [effectivePrice, h]

/-- Witness for C3 (amended) on the zero-override item. -/
theorem cart_subtotal_effective_sum_witness :
    cartSubtotal [cex3] =
      ([cex3].map (fun item => effectivePrice item * (item.quantity : ℚ))).sum ∧
    effectivePrice cex3 = cex3.product.sellPrice :=
  ⟨(cart_subtotal_effective_sum [cex3]).1,
    ((cart_subtotal_effective_sum [cex3]).2 cex3).2 (Or.inr rfl)⟩

/-- Counterexample to C5: the photocopy quick-add with 2 sheets and total
price 1000 appends a row with quantity 2 (not 1) and unit price 500 (the
per-sheet price, not the full amount). -/
theorem photocopy_unit_quantity_cex :
    (addItem 7 s5).state.items.map ManualItem.quantity = [2] ∧ (2 : ℤ) ≠ 1 ∧
    (addItem 7 s5).state.items.map ManualItem.unitPrice = [500] ∧ (500 : ℚ) ≠ 1000 ∧
    (addItem 7 s5).state.items.map ManualItem.total = [1000] := by
  have hq : ¬ (s5.photocopyQuantity ≤ 0 ∨ s5.photocopyTotalPrice ≤ 0) := by
    push_neg
    constructor
    · decide
    · norm_num [s5]
  refine ⟨?_, by decide, ?_, by norm_num, ?_⟩ <;>
    · show (addItem 7 s5).state.items.map _ = _
      rw [show (addItem 7 s5) = _ from rfl]
      simp only [addItem, s5]
      norm_num

/-- C5 (amended): with positive pre-multiplied quantity N and positive total
price P, the photocopy quick-add appends exactly one row whose name encodes N,
whose quantity is N, whose unit price is P divided by N, and whose stored
total is P. -/
theorem photocopy_additem_appends (now : ℕ) (s : MIState)
    (hk : s.itemKind = .photocopy) (hq : 0 < s.photocopyQuantity)
    (hp : 0 < s.photocopyTotalPrice) :
    (addItem now s).errorMsg = none ∧
    (addItem now s).state.items = s.items ++
      [{ id := toString now
         name := "Fotocopy " ++ toString s.photocopyQuantity ++ " lembar"
         quantity := s.photocopyQuantity
         unitPrice := s.photocopyTotalPrice / (s.photocopyQuantity : ℚ)
         total := s.photocopyTotalPrice }] := by
  have hcond : ¬ (s.photocopyQuantity ≤ 0 ∨ s.photocopyTotalPrice ≤ 0) := by
    push_neg
    exact ⟨hq, hp⟩
  simp only [addItem, hk]
  rw [if_neg hcond]
  exact ⟨rfl, rfl⟩

/-- Witness for C5 (amended) at 2 sheets and total price 1000. -/
theorem photocopy_additem_appends_witness :
    s5.itemKind = ItemKind.photocopy ∧ 0 < s5.photocopyQuantity ∧
    0 < s5.photocopyTotalPrice ∧
    ((addItem 7 s5).errorMsg = none ∧
      (addItem 7 s5).state.items = s5.items ++
        [{ id := toString 7
           name := "Fotocopy " ++ toString s5.photocopyQuantity ++ " lembar"
           quantity := s5.photocopyQuantity
           unitPrice := s5.photocopyTotalPrice / (s5.photocopyQuantity : ℚ)
           total := s5.photocopyTotalPrice }]) :=
  ⟨rfl, by decide, by norm_num [s5],
    photocopy_additem_appends 7 s5 rfl (by decide) (by norm_num [s5])⟩

/-- C7: a regular manual row is rejected (with an error message, state
unchanged) exactly when the name is empty, the unit price is ≤ 0, or the
quantity is ≤ 0; otherwise no error is raised and exactly one row with
total = quantity × unitPrice and the fresh identifier is appended. -/
theorem additem_regular_validation (now : ℕ) (s : MIState)
    (hk : s.itemKind = .regular) :
    (((addItem now s).errorMsg.isSome = true ∧ (addItem now s).state = s) ↔
      (s.currentItem.name = "" ∨ s.currentItem.unitPrice ≤ 0 ∨
        s.currentItem.quantity ≤ 0)) ∧
    (¬ (s.currentItem.name = "" ∨ s.currentItem.unitPrice ≤ 0 ∨
        s.currentItem.quantity ≤ 0) →
      (addItem now s).errorMsg = none ∧
      (addItem now s).state.items = s.items ++
        [{ id := toString now
           name := s.currentItem.name
           quantity := s.currentItem.quantity
           unitPrice := s.currentItem.unitPrice
           total := (s.currentItem.quantity : ℚ) * s.currentItem.unitPrice }] ∧
      (addItem now s).state.items ≠ s.items) := by
  by_cases hc : s.currentItem.name = "" ∨ s.currentItem.unitPrice ≤ 0 ∨
      s.currentItem.quantity ≤ 0
  · constructor
    · simp only [addItem, hk, if_pos hc]
      simp [hc]
    · intro h
      exact absurd hc h
  · constructor
    · simp only [addItem, hk, if_neg hc]
      simp only [Option.isSome_none, Bool.false_eq_true, false_and, false_iff]
      exact hc
    · intro _
      simp only [addItem, hk, if_neg hc]
      refine ⟨trivial, trivial, ?_⟩
      intro he
      have hlen := congrArg List.length he
      simp at hlen

/-- Witness for C7 on a valid concrete row (name, quantity 3, unit price
1500). -/
theorem additem_regular_validation_witness :
    (addItem 3 s7).errorMsg = none ∧ (addItem 3 s7).state.items ≠ s7.items :=
  ⟨((additem_regular_validation 3 s7 rfl).2 (by
      push_neg
      refine ⟨by decide, by norm_num [s7], by decide⟩)).1,
    ((additem_regular_validation 3 s7 rfl).2 (by
      push_neg
      refine ⟨by decide, by norm_num [s7], by decide⟩)).2.2⟩

/-- C10: a cart item whose override price is the explicit value 0 is priced at
the catalog sell price in the effective price, the displayed line total, and
the subtotal — a zero override cannot make an item free. -/
theorem zero_override_fallback (item : CartItem) (rest : List CartItem)
    (h : item.finalPrice = some 0) :
    effectivePrice item = item.product.sellPrice ∧
    lineTotal item = item.product.sellPrice * (item.quantity : ℚ) ∧
    cartSubtotal (item :: rest) =
      item.product.sellPrice * (item.quantity : ℚ) + cartSubtotal rest := by
  have he : effectivePrice item = item.product.sellPrice := by
    simp [effectivePrice, h]
  refine ⟨he, by rw [lineTotal, he], ?_⟩
  rw [cartSubtotal_eq_sum, cartSubtotal_eq_sum, List.map_cons, List.sum_cons,
    lineTotal, he]

/-- Witness for C10 on the concrete zero-override item. -/
theorem zero_override_fallback_witness :
    cex3.finalPrice = some 0 ∧
    (effectivePrice cex3 = cex3.product.sellPrice ∧
      lineTotal cex3 = cex3.product.sellPrice * (cex3.quantity : ℚ) ∧
      cartSubtotal [cex3] =
        cex3.product.sellPrice * (cex3.quantity : ℚ) + cartSubtotal []) :=
  ⟨rfl, zero_override_fallback cex3 [] rfl⟩
